import Mathlib

/-!
Shallow embedding of the recording/playback screen of
`react_native_record_example` (the `RecordingsScreen` component) and proofs
about it.  Pure helpers (`formatTime`) are translated directly; the stateful
component is modelled as a record of its `useState` variables plus the timer
and playback-listener registrations, and each handler
(`startRecording`, `stopRecording`, `playRecording`, the playback-progress
listener and the 500ms interval tick) becomes a pure state-transformer that
also reports the engine calls it issued and the alerts it showed.  Outcomes of
the asynchronous engine primitives (`Sound.startRecorder`, `Sound.stopRecorder`,
`Sound.stopPlayer`, `Sound.startPlayer`) and the wall clock (`Date.now()`) are
supplied as explicit environment parameters.
-/

namespace RecordApp

/-! ### TimeFormatter

`formatTime` translates the source's

```js
const formatTime = (milliseconds) => {
  const totalSeconds = Math.floor(milliseconds / 1000);
  const minutes = Math.floor(totalSeconds / 60);
  const seconds = totalSeconds % 60;
  return `${minutes.toString().padStart(2, '0')}:${seconds.toString().padStart(2, '0')}`;
};
```

`padStart2` is JavaScript's `s.padStart(2, '0')`; `Nat.repr` is the decimal
rendering matching `Number.prototype.toString` on non-negative integers. -/

def padStart2 (s : String) : String :=
  if 2 ≤ s.length then s else String.mk (List.replicate (2 - s.length) '0') ++ s

def formatTime (milliseconds : Nat) : String :=
  let totalSeconds := milliseconds / 1000
  let minutes := totalSeconds / 60
  let seconds := totalSeconds % 60
  padStart2 (Nat.repr minutes) ++ ":" ++ padStart2 (Nat.repr seconds)

/-! ### Decimal-digit theory

`decDigits` is a structurally transparent specification of the fuel-based
`Nat.toDigitsCore` used by `Nat.repr`; we prove the two agree and derive the
shape facts (all characters are digits, value round-trips) needed for the
`formatTime` claims. -/

def decDigits (n : Nat) : List Char :=
  if _h : n < 10 then [Nat.digitChar n]
  else decDigits (n / 10) ++ [Nat.digitChar (n % 10)]
decreasing_by exact Nat.div_lt_self (by omega) (by omega)

def digitStep (a : Nat) (c : Char) : Nat := 10 * a + (c.toNat - 48)

def digitsVal (l : List Char) : Nat := l.foldl digitStep 0

/-! ### Data model

`RecordingItem` mirrors the `RecordingItem` interface of the source; the
optional `isPlaying` field is always set to `false` at creation. -/

structure RecordingItem where
  id : String
  name : String
  duration : String
  path : String
  date : String
  isPlaying : Bool
deriving Repr, DecidableEq

/-- The component's state: the `useState` variables of `RecordingsScreen`,
plus `timer` (the `timerRef.current` interval, carrying the `startTime`
captured by its closure; `none` when no interval is scheduled) and
`listenerActive` (whether a playback listener is currently registered with
the engine). -/
structure ScreenState where
  recordings : List RecordingItem
  isRecording : Bool
  isLoading : Bool
  currentRecordingPath : Option String
  currentlyPlayingId : Option String
  recordingStartTime : Option Nat
  isRecordingSheetVisible : Bool
  recordingDuration : String
  timer : Option Nat
  listenerActive : Bool
deriving Repr, DecidableEq

/-- Initial state of the component (the `useState` initial values). -/
def initState : ScreenState :=
  { recordings := []
    isRecording := false
    isLoading := false
    currentRecordingPath := none
    currentlyPlayingId := none
    recordingStartTime := none
    isRecordingSheetVisible := false
    recordingDuration := "00:00"
    timer := none
    listenerActive := false }

/-- Calls made to the opaque audio engine (`react-native-nitro-sound`). -/
inductive EngineCall where
  | startRecorder (path : String)
  | stopRecorder
  | startPlayer (path : String)
  | stopPlayer
  | addPlayBackListener
  | removePlayBackListener
deriving Repr, DecidableEq

/-- Result of running one handler: the next component state, the engine calls
it issued (in order), and the `Alert.alert` titles it showed. -/
structure Effects where
  state : ScreenState
  calls : List EngineCall
  alerts : List String
deriving Repr, DecidableEq

/-- Environment for one `startRecording` call: the permission outcome, the
platform directory for the destination path, `Date.now()`, and whether the
engine's `startRecorder` resolves or rejects. -/
structure RecEnv where
  permissionGranted : Bool
  dir : String
  now : Nat
  startRecorderOk : Bool
deriving Repr, DecidableEq

/-- Environment for one `stopRecording` call: whether `stopRecorder` resolves,
`Date.now()` (used for the new record's id), and the `toLocaleString` date. -/
structure StopEnv where
  stopRecorderOk : Bool
  now : Nat
  dateStr : String
deriving Repr, DecidableEq

/-- Environment for one `playRecording` call: whether the engine's
`stopPlayer` and `startPlayer` promises resolve. -/
structure PlayEnv where
  stopPlayerOk : Bool
  startPlayerOk : Bool
deriving Repr, DecidableEq

/-- Destination path construction of `startRecording`:
`` `${dir}/recording_${timestamp}.m4a` ``. -/
def recordingPathFor (dir : String) (timestamp : Nat) : String :=
  dir ++ "/recording_" ++ Nat.repr timestamp ++ ".m4a"

/-! ### RecordingSession operations -/

/-- The `startRecording` handler.  After a permission check it sets
`isLoading`, builds a fresh path, awaits `Sound.startRecorder`; on success it
sets `isRecording`, the path, the start time, resets `recordingDuration` to
`"00:00"`, (re)schedules the 500ms interval whose closure captures
`startTime`, and shows the recording sheet; on engine failure it alerts and
leaves the session state untouched.  `finally` clears `isLoading`. -/
def startRecording (env : RecEnv) (s : ScreenState) : Effects :=
  if env.permissionGranted = false then
    { state := s, calls := [], alerts := [] }
  else
    let path := recordingPathFor env.dir env.now
    if env.startRecorderOk then
      { state := { s with
          isRecording := true
          currentRecordingPath := some path
          recordingStartTime := some env.now
          recordingDuration := "00:00"
          timer := some env.now
          isRecordingSheetVisible := true
          isLoading := false }
        calls := [.startRecorder path]
        alerts := [] }
    else
      { state := { s with isLoading := false }
        calls := [.startRecorder path]
        alerts := ["Failed to start recording"] }

/-- One firing of the 500ms interval scheduled by `startRecording`:
`setRecordingDuration(formatTime(Date.now() - startTime))`, where `startTime`
is the value captured by the interval's closure.  A no-op when no interval is
scheduled. -/
def tickFire (now : Nat) (s : ScreenState) : ScreenState :=
  match s.timer with
  | some startTime => { s with recordingDuration := formatTime (now - startTime) }
  | none => s

/-- Exit paths of `stopRecording`, named after the spec's error taxonomy:
the guard `if (!isRecording || !currentRecordingPath) return;` is the
`invalidStateTransition` path, the `catch` around `Sound.stopRecorder` is
`engineStopFailure`, and the success path returns the new record. -/
inductive StopOutcome where
  | invalidStateTransition
  | engineStopFailure
  | stopped (r : RecordingItem)
deriving Repr, DecidableEq

/-- The `stopRecording` handler.  Guarded no-op unless a recording is active
with a path; on engine success it saves the `recordingDuration` snapshot as
the record's duration, clears the interval, hides the sheet, appends the new
record (named `"Recording " + (recordings.length + 1)`) and clears the path;
on engine rejection the `catch` only alerts (the session stays as it was). -/
def stopRecording (env : StopEnv) (s : ScreenState) : Effects × StopOutcome :=
  match s.isRecording, s.currentRecordingPath with
  | true, some path =>
    if env.stopRecorderOk then
      let newRecording : RecordingItem :=
        { id := Nat.repr env.now
          name := "Recording " ++ Nat.repr (s.recordings.length + 1)
          duration := s.recordingDuration
          path := path
          date := env.dateStr
          isPlaying := false }
      ({ state := { s with
            isRecording := false
            timer := none
            isRecordingSheetVisible := false
            recordingStartTime := none
            recordings := s.recordings ++ [newRecording]
            currentRecordingPath := none
            isLoading := false }
         calls := [.stopRecorder]
         alerts := [] }, .stopped newRecording)
    else
      ({ state := { s with isLoading := false }
         calls := [.stopRecorder]
         alerts := ["Failed to stop recording"] }, .engineStopFailure)
  | _, _ => ({ state := s, calls := [], alerts := [] }, .invalidStateTransition)

/-! ### PlaybackSession operations -/

/-- Tail of `playRecording` after the already-playing check: marks the item
as playing, awaits `Sound.startPlayer(item.path)`; on success registers the
playback listener, on rejection the `catch` alerts and resets
`currentlyPlayingId` to `null`.  `acc` is the engine calls already made. -/
def playStart (env : PlayEnv) (item : RecordingItem) (s : ScreenState)
    (acc : List EngineCall) : Effects :=
  let s' := { s with currentlyPlayingId := some item.id }
  if env.startPlayerOk then
    { state := { s' with listenerActive := true, isLoading := false }
      calls := acc ++ [.startPlayer item.path, .addPlayBackListener]
      alerts := [] }
  else
    { state := { s' with currentlyPlayingId := none, isLoading := false }
      calls := acc ++ [.startPlayer item.path]
      alerts := ["Failed to play recording"] }

/-- The `playRecording` handler.  If something is playing it awaits
`Sound.stopPlayer` and removes the listener; if the pressed item is the one
playing it just clears `currentlyPlayingId` (toggle-to-stop); otherwise (or
from idle) it proceeds to start playback of `item`.  A rejection of
`stopPlayer` lands in the `catch`, which alerts and clears
`currentlyPlayingId`. -/
def playRecording (env : PlayEnv) (item : RecordingItem) (s : ScreenState) : Effects :=
  match s.currentlyPlayingId with
  | some pid =>
    if env.stopPlayerOk then
      let s' := { s with listenerActive := false }
      if pid = item.id then
        { state := { s' with currentlyPlayingId := none, isLoading := false }
          calls := [.stopPlayer, .removePlayBackListener]
          alerts := [] }
      else
        playStart env item s' [.stopPlayer, .removePlayBackListener]
    else
      { state := { s with currentlyPlayingId := none, isLoading := false }
        calls := [.stopPlayer]
        alerts := ["Failed to play recording"] }
  | none => playStart env item s []

/-- The playback-progress listener registered by `playRecording`: on the
terminal tick (`e.currentPosition === e.duration`, exact equality) it stops
the player, removes itself and clears `currentlyPlayingId`; any other event
changes nothing. -/
def onPlaybackEvent (currentPosition duration : Nat) (s : ScreenState) : Effects :=
  if currentPosition = duration then
    { state := { s with currentlyPlayingId := none, listenerActive := false }
      calls := [.stopPlayer, .removePlayBackListener]
      alerts := [] }
  else
    { state := s, calls := [], alerts := [] }

/-! ### Coordinator: the operations the UI can drive -/

/-- User-visible operations plus the two autonomous event sources.  The FAB
dispatches `stopRecording` when `isRecording` and `startRecording` otherwise;
a list row at index `i` dispatches `playRecording` on that row's item; the
interval and the playback listener fire on their own (the latter only while a
listener is registered). -/
inductive Op where
  | toggleRecord (renv : RecEnv) (senv : StopEnv)
  | togglePlay (i : Nat) (penv : PlayEnv)
  | timerEvent (now : Nat)
  | playbackProgress (currentPosition duration : Nat)
deriving Repr, DecidableEq

/-- One coordinator step, projecting out the resulting component state. -/
def step (op : Op) (s : ScreenState) : ScreenState :=
  match op with
  | .toggleRecord renv senv =>
    if s.isRecording then ((stopRecording senv s).1).state else (startRecording renv s).state
  | .togglePlay i penv =>
    match s.recordings[i]? with
    | some item => (playRecording penv item s).state
    | none => s
  | .timerEvent now => tickFire now s
  | .playbackProgress pos dur =>
    if s.listenerActive then (onPlaybackEvent pos dur s).state else s

/-- Runs a sequence of operations from the initial state. -/
def run (ops : List Op) : ScreenState := ops.foldl (fun s op => step op s) initState

/-! ### A start–tick–stop scenario -/

/-- Applies the `k` scheduled interval firings at `startTime + 500·1, …,
startTime + 500·k`. -/
def applyTicks (startTime : Nat) : Nat → ScreenState → ScreenState
  | 0, s => s
  | k + 1, s => tickFire (startTime + 500 * (k + 1)) (applyTicks startTime k s)

/-- A successful `startRecording` at time `t0`, the interval firings
scheduled up to time `t1`, then a successful `stopRecording` at time `t1`. -/
def recordOnce (dir dateStr : String) (t0 t1 idNow : Nat) (s : ScreenState) :
    Effects × StopOutcome :=
  let s1 := (startRecording { permissionGranted := true, dir := dir, now := t0,
                              startRecorderOk := true } s).state
  let s2 := applyTicks t0 ((t1 - t0) / 500) s1
  stopRecording { stopRecorderOk := true, now := idNow, dateStr := dateStr } s2

/-- Recognizes an engine `startPlayer` call. -/
def isStartPlayer : EngineCall → Bool
  | .startPlayer _ => true
  | _ => false

/-- Recognizes an engine `stopPlayer` call. -/
def isStopPlayer : EngineCall → Bool
  | .stopPlayer => true
  | _ => false

/-- A press of the record FAB at time `t`, with permissions granted and both
engine recorder primitives succeeding. -/
def opToggleRec (t : Nat) : Op :=
  .toggleRecord
    { permissionGranted := true, dir := "files", now := t, startRecorderOk := true }
    { stopRecorderOk := true, now := t, dateStr := "d" }

/-- Record from 0 to 1000ms (producing the record with id `"1000"`), start a
second recording at 2000ms, then press play on the first record: the final
state has a recording and a playback simultaneously active. -/
def cexOps : List Op :=
  [opToggleRec 0, opToggleRec 1000, opToggleRec 2000,
   .togglePlay 0 { stopPlayerOk := true, startPlayerOk := true }]

/-- Record from 0 to 1000ms, then start a second recording at 2000ms: ends
with a recording active, one record in the list and nothing playing. -/
def opsRecActive : List Op := [opToggleRec 0, opToggleRec 1000, opToggleRec 2000]

/-- Record from 0 to 1000ms, then play the resulting record: ends with
playback active and no recording active. -/
def opsPlayActive : List Op :=
  [opToggleRec 0, opToggleRec 1000,
   .togglePlay 0 { stopPlayerOk := true, startPlayerOk := true }]

theorem digitChar_isDigit {m : Nat} (h : m < 10) : (Nat.digitChar m).isDigit = true := by
  interval_cases m <;> decide

theorem digitChar_toNat {m : Nat} (h : m < 10) : (Nat.digitChar m).toNat - 48 = m := by
  interval_cases m <;> decide

theorem toDigitsCore_eq_decDigits :
    ∀ (fuel n : Nat) (ds : List Char), n < fuel →
      Nat.toDigitsCore 10 fuel n ds = decDigits n ++ ds := by
  intro fuel
  induction fuel with
  | zero => intro n ds h; omega
  | succ fuel ih =>
    intro n ds _
    show (if n / 10 = 0 then Nat.digitChar (n % 10) :: ds
          else Nat.toDigitsCore 10 fuel (n / 10) (Nat.digitChar (n % 10) :: ds))
         = decDigits n ++ ds
    by_cases h10 : n < 10
    · have hz : n / 10 = 0 := Nat.div_eq_of_lt h10
      have hm : n % 10 = n := Nat.mod_eq_of_lt h10
      rw [decDigits]
      simp [hz, hm, h10]
    · have hz : n / 10 ≠ 0 := by omega
      rw [if_neg hz, ih (n / 10) (Nat.digitChar (n % 10) :: ds) (by omega)]
      conv_rhs => rw [decDigits]
      rw [dif_neg h10]
      simp

theorem repr_data_eq_decDigits (n : Nat) : (Nat.repr n).data = decDigits n := by
  show (Nat.toDigits 10 n).asString.data = decDigits n
  show (Nat.toDigitsCore 10 (n + 1) n []).asString.data = decDigits n
  rw [toDigitsCore_eq_decDigits (n + 1) n [] (by omega)]
  simp [List.asString]

theorem decDigits_length_pos (n : Nat) : 1 ≤ (decDigits n).length := by
  rw [decDigits]
  by_cases h : n < 10
  · simp [h]
  · simp [h]

theorem decDigits_all_digits (n : Nat) : ∀ c ∈ decDigits n, c.isDigit = true := by
  induction n using Nat.strong_induction_on with
  | _ n ih =>
    rw [decDigits]
    by_cases h : n < 10
    · simp only [h, dif_pos]
      intro c hc
      simp only [List.mem_singleton] at hc
      subst hc
      exact digitChar_isDigit h
    · simp only [h, dif_neg, not_false_iff]
      intro c hc
      rcases List.mem_append.mp hc with hc | hc
      · exact ih (n / 10) (Nat.div_lt_self (by omega) (by omega)) c hc
      · simp only [List.mem_singleton] at hc
        subst hc
        exact digitChar_isDigit (Nat.mod_lt n (by omega))

theorem decDigits_foldl (n : Nat) :
    ∀ a : Nat, (decDigits n).foldl digitStep a = a * 10 ^ (decDigits n).length + n := by
  induction n using Nat.strong_induction_on with
  | _ n ih =>
    intro a
    rw [decDigits]
    by_cases h : n < 10
    · simp only [h, dif_pos, List.foldl_cons, List.foldl_nil, List.length_singleton]
      simp [digitStep, digitChar_toNat h]
      ring
    · simp only [h, dif_neg, not_false_iff, List.foldl_append, List.length_append]
      rw [ih (n / 10) (Nat.div_lt_self (by omega) (by omega)) a]
      simp only [List.foldl_cons, List.foldl_nil, List.length_singleton, digitStep]
      rw [digitChar_toNat (Nat.mod_lt n (by omega))]
      have hdm : 10 * (n / 10) + n % 10 = n := Nat.div_add_mod n 10
      rw [pow_succ]
      ring_nf
      omega

theorem decDigits_val (n : Nat) : digitsVal (decDigits n) = n := by
  rw [digitsVal, decDigits_foldl n 0]
  simp

theorem decDigits_length_le_two {n : Nat} (h : n < 100) : (decDigits n).length ≤ 2 := by
  rw [decDigits]
  by_cases h10 : n < 10
  · simp [h10]
  · rw [dif_neg h10]
    have : n / 10 < 10 := by omega
    rw [decDigits, dif_pos this]
    simp

theorem padStart2_data (s : String) :
    (padStart2 s).data = List.replicate (2 - s.data.length) '0' ++ s.data := by
  rw [padStart2]
  by_cases h : 2 ≤ s.length
  · have hlen : s.length = s.data.length := rfl
    have hz : 2 - s.data.length = 0 := by omega
    simp [h, hz]
  · rw [if_neg h]
    rfl

theorem digitStep_zero : digitStep 0 '0' = 0 := by decide

theorem foldl_replicate_zero (k : Nat) :
    (List.replicate k '0').foldl digitStep 0 = 0 := by
  induction k with
  | zero => rfl
  | succ k ih => rw [List.replicate_succ, List.foldl_cons, digitStep_zero, ih]

theorem digitsVal_replicate_append (k : Nat) (l : List Char) :
    digitsVal (List.replicate k '0' ++ l) = digitsVal l := by
  rw [digitsVal, List.foldl_append, foldl_replicate_zero]
  rfl

theorem padStart2_repr_length (n : Nat) :
    2 ≤ (padStart2 (Nat.repr n)).data.length := by
  rw [padStart2_data, List.length_append, List.length_replicate]
  have h1 : 1 ≤ (Nat.repr n).data.length := by
    rw [repr_data_eq_decDigits]; exact decDigits_length_pos n
  omega

theorem padStart2_repr_length_two {n : Nat} (h : n < 100) :
    (padStart2 (Nat.repr n)).data.length = 2 := by
  rw [padStart2_data, List.length_append, List.length_replicate]
  have h1 : 1 ≤ (Nat.repr n).data.length := by
    rw [repr_data_eq_decDigits]; exact decDigits_length_pos n
  have h2 : (Nat.repr n).data.length ≤ 2 := by
    rw [repr_data_eq_decDigits]; exact decDigits_length_le_two h
  omega

theorem padStart2_repr_digits (n : Nat) :
    ∀ c ∈ (padStart2 (Nat.repr n)).data, c.isDigit = true := by
  rw [padStart2_data]
  intro c hc
  rcases List.mem_append.mp hc with hc | hc
  · rw [List.eq_of_mem_replicate hc]
    decide
  · rw [repr_data_eq_decDigits] at hc
    exact decDigits_all_digits n c hc

theorem padStart2_repr_val (n : Nat) :
    digitsVal (padStart2 (Nat.repr n)).data = n := by
  rw [padStart2_data, digitsVal_replicate_append, repr_data_eq_decDigits]
  exact decDigits_val n

theorem formatTime_data (ms : Nat) :
    (formatTime ms).data =
      (padStart2 (Nat.repr (ms / 1000 / 60))).data ++
        ':' :: (padStart2 (Nat.repr (ms / 1000 % 60))).data := by
  show ((padStart2 (Nat.repr (ms / 1000 / 60)) ++ ":") ++
          padStart2 (Nat.repr (ms / 1000 % 60))).data = _
  show ((padStart2 (Nat.repr (ms / 1000 / 60))).data ++ [':']) ++
          (padStart2 (Nat.repr (ms / 1000 % 60))).data = _
  simp

/-! ### Claim theorems -/

/-- C9: for every non-negative integer `ms`, `formatTime ms` is
`minutes:seconds` with `minutes = ⌊⌊ms/1000⌋/60⌋` and
`seconds = ⌊ms/1000⌋ mod 60`, both zero-padded to width 2 and minutes not
clamped to 59: its character data is two-or-more digit characters, a colon,
then exactly two digit characters, and parsing the two fields back in decimal
gives `minutes * 60 + seconds = ⌊ms/1000⌋`; in particular
`formatTime 0 = "00:00"`, `formatTime 61000 = "01:01"` and
`formatTime 600000 = "10:00"`. -/
theorem formatTime_spec :
    formatTime 0 = "00:00" ∧ formatTime 61000 = "01:01" ∧ formatTime 600000 = "10:00" ∧
    ∀ ms : Nat, ∃ a b : List Char,
      (formatTime ms).data = a ++ ':' :: b ∧
      2 ≤ a.length ∧ (∀ c ∈ a, c.isDigit = true) ∧
      b.length = 2 ∧ (∀ c ∈ b, c.isDigit = true) ∧
      digitsVal a = ms / 1000 / 60 ∧ digitsVal b = ms / 1000 % 60 ∧
      digitsVal a * 60 + digitsVal b = ms / 1000 := by
  refine ⟨by decide, by decide, by decide, ?_⟩
  intro ms
  refine ⟨(padStart2 (Nat.repr (ms / 1000 / 60))).data,
          (padStart2 (Nat.repr (ms / 1000 % 60))).data,
          formatTime_data ms,
          padStart2_repr_length _,
          padStart2_repr_digits _,
          padStart2_repr_length_two (by omega),
          padStart2_repr_digits _,
          padStart2_repr_val _,
          padStart2_repr_val _, ?_⟩
  rw [padStart2_repr_val, padStart2_repr_val]
  omega

/-- C7: calling the stop handler when no recording session is active is the
`InvalidStateTransition` exit path (the source's early-return guard): it
leaves the whole component state unchanged, issues no engine call (in
particular no `stopRecorder`), shows no alert and creates no record. -/
theorem stop_without_start_noop (s : ScreenState) (env : StopEnv)
    (h : s.isRecording = false) :
    stopRecording env s =
      ({ state := s, calls := [], alerts := [] }, StopOutcome.invalidStateTransition) := by
  cases hp : s.currentRecordingPath <;> simp [stopRecording, h, hp]

/-- Witness for C7 at a concrete input: stopping from the initial state. -/
theorem stop_without_start_noop_witness :
    stopRecording { stopRecorderOk := true, now := 5, dateStr := "d" } initState =
      ({ state := initState, calls := [], alerts := [] },
        StopOutcome.invalidStateTransition) :=
  stop_without_start_noop initState { stopRecorderOk := true, now := 5, dateStr := "d" } rfl

/-- C10: `playRecording` never touches the recordings list nor any of the
recording-session state: whatever the current playback state and whatever the
engine outcomes, the list (hence every existing record and their order), the
`isRecording` flag, the pending recording path, the start time, the duration
text, the interval and the sheet flag are all exactly as before; only
`currentlyPlayingId`, `isLoading` and the engine listener registration can
change. -/
theorem playRecording_frame (env : PlayEnv) (item : RecordingItem) (s : ScreenState) :
    ((playRecording env item s).state).recordings = s.recordings ∧
    ((playRecording env item s).state).isRecording = s.isRecording ∧
    ((playRecording env item s).state).currentRecordingPath = s.currentRecordingPath ∧
    ((playRecording env item s).state).recordingStartTime = s.recordingStartTime ∧
    ((playRecording env item s).state).recordingDuration = s.recordingDuration ∧
    ((playRecording env item s).state).timer = s.timer ∧
    ((playRecording env item s).state).isRecordingSheetVisible = s.isRecordingSheetVisible := by
  cases hid : s.currentlyPlayingId <;>
    simp only [playRecording, playStart, hid] <;>
    split_ifs <;> simp

/-- C4: while a playback is active, a progress event with
`currentPosition = duration` (exact equality) autonomously stops the session:
the engine's `stopPlayer` is called, the listener removes itself and
`currentlyPlayingId` becomes `null`, with no user action; an event with
`currentPosition ≠ duration` changes nothing and calls nothing. -/
theorem playback_completion_autostop (s : ScreenState) (pid : String)
    (pos dur : Nat) (_hact : s.currentlyPlayingId = some pid) :
    (pos = dur →
      onPlaybackEvent pos dur s =
        { state := { s with currentlyPlayingId := none, listenerActive := false }
          calls := [.stopPlayer, .removePlayBackListener]
          alerts := [] }) ∧
    (pos ≠ dur → onPlaybackEvent pos dur s = { state := s, calls := [], alerts := [] }) := by
  constructor <;> intro h <;> simp [onPlaybackEvent, h]

/-- Witness for C4 at a concrete input: the terminal tick at position 7 of 7
while record `"r1"` is playing. -/
theorem playback_completion_autostop_witness :
    onPlaybackEvent 7 7 { initState with currentlyPlayingId := some "r1" } =
      { state := { { initState with currentlyPlayingId := some "r1" } with
                   currentlyPlayingId := none, listenerActive := false }
        calls := [.stopPlayer, .removePlayBackListener]
        alerts := [] } :=
  (playback_completion_autostop { initState with currentlyPlayingId := some "r1" }
    "r1" 7 7 rfl).1 rfl

/-- C3: on a successful stop of an active recording, the new record's
duration text is exactly the `recordingDuration` snapshot held when stop was
invoked (the value written by the last 500ms interval firing, or `"00:00"` if
none fired); it does not depend on the wall clock at the moment of stop: any
two successful stops of the same state, at arbitrary stop times, produce the
same duration text. -/
theorem stop_duration_is_snapshot (s : ScreenState) (p : String) (env : StopEnv)
    (hrec : s.isRecording = true) (hp : s.currentRecordingPath = some p)
    (hok : env.stopRecorderOk = true) :
    ∃ r : RecordingItem,
      (stopRecording env s).2 = .stopped r ∧
      r.duration = s.recordingDuration ∧
      ∀ env' : StopEnv, env'.stopRecorderOk = true →
        ∃ r' : RecordingItem,
          (stopRecording env' s).2 = .stopped r' ∧ r'.duration = r.duration := by
  refine ⟨{ id := Nat.repr env.now,
            name := "Recording " ++ Nat.repr (s.recordings.length + 1),
            duration := s.recordingDuration, path := p, date := env.dateStr,
            isPlaying := false }, ?_, rfl, ?_⟩
  · simp [stopRecording, hrec, hp, hok]
  · intro env' hok'
    refine ⟨{ id := Nat.repr env'.now,
              name := "Recording " ++ Nat.repr (s.recordings.length + 1),
              duration := s.recordingDuration, path := p, date := env'.dateStr,
              isPlaying := false }, ?_, rfl⟩
    simp [stopRecording, hrec, hp, hok']

/-- Witness for C3 at a concrete input: stopping a live recording whose last
tick snapshot was `"00:03"`, at two different stop times. -/
theorem stop_duration_is_snapshot_witness :
    ∃ r : RecordingItem,
      (stopRecording { stopRecorderOk := true, now := 3600, dateStr := "d" }
        { initState with isRecording := true, currentRecordingPath := some "files/a.m4a",
                         recordingDuration := "00:03", timer := some 0 }).2 = .stopped r ∧
      r.duration = "00:03" ∧
      ∀ env' : StopEnv, env'.stopRecorderOk = true →
        ∃ r' : RecordingItem,
          (stopRecording env'
            { initState with isRecording := true, currentRecordingPath := some "files/a.m4a",
                             recordingDuration := "00:03", timer := some 0 }).2 = .stopped r' ∧
          r'.duration = r.duration :=
  stop_duration_is_snapshot
    { initState with isRecording := true, currentRecordingPath := some "files/a.m4a",
                     recordingDuration := "00:03", timer := some 0 }
    "files/a.m4a" { stopRecorderOk := true, now := 3600, dateStr := "d" } rfl rfl rfl

/-- C5: pressing play on record `item` while a different record `pid` is the
active playback performs exactly one stop-then-start sequence: the engine
trace is `stopPlayer`, `removePlayBackListener`, then `startPlayer item.path`
(followed by the listener registration exactly when the start succeeds); the
final playback state is `item.id` if the new start succeeds and idle
otherwise, in which case the error is surfaced as an alert. -/
theorem switch_playback_stop_then_start (s : ScreenState) (item : RecordingItem)
    (pid : String) (env : PlayEnv) (hact : s.currentlyPlayingId = some pid)
    (hne : pid ≠ item.id) (hstop : env.stopPlayerOk = true) :
    (playRecording env item s).calls =
      [.stopPlayer, .removePlayBackListener, .startPlayer item.path] ++
        (if env.startPlayerOk then [.addPlayBackListener] else []) ∧
    ((playRecording env item s).state).currentlyPlayingId =
      (if env.startPlayerOk then some item.id else none) ∧
    (playRecording env item s).alerts =
      (if env.startPlayerOk then [] else ["Failed to play recording"]) := by
  by_cases hs : env.startPlayerOk <;>
    simp [playRecording, playStart, hact, hne, hstop, hs]

/-- Witness for C5 at a concrete input: switching from playing record `"a"`
to a record with id `"b"`, with both engine calls succeeding. -/
theorem switch_playback_stop_then_start_witness :
    (playRecording { stopPlayerOk := true, startPlayerOk := true }
      { id := "b", name := "Recording 2", duration := "00:01", path := "files/b.m4a",
        date := "d", isPlaying := false }
      { initState with currentlyPlayingId := some "a", listenerActive := true }).calls =
      [.stopPlayer, .removePlayBackListener, .startPlayer "files/b.m4a"] ++
        (if (true : Bool) then [.addPlayBackListener] else []) ∧
    ((playRecording { stopPlayerOk := true, startPlayerOk := true }
      { id := "b", name := "Recording 2", duration := "00:01", path := "files/b.m4a",
        date := "d", isPlaying := false }
      { initState with currentlyPlayingId := some "a", listenerActive := true }).state).currentlyPlayingId =
      (if (true : Bool) then some "b" else none) ∧
    (playRecording { stopPlayerOk := true, startPlayerOk := true }
      { id := "b", name := "Recording 2", duration := "00:01", path := "files/b.m4a",
        date := "d", isPlaying := false }
      { initState with currentlyPlayingId := some "a", listenerActive := true }).alerts =
      (if (true : Bool) then [] else ["Failed to play recording"]) :=
  switch_playback_stop_then_start
    { initState with currentlyPlayingId := some "a", listenerActive := true }
    { id := "b", name := "Recording 2", duration := "00:01", path := "files/b.m4a",
      date := "d", isPlaying := false }
    "a" { stopPlayerOk := true, startPlayerOk := true } rfl (by decide) rfl

/-- C6: from idle, pressing play on `item` and then pressing play on the same
`item` again is a toggle-to-stop round trip: the first press starts playback
of `item` (engine trace `startPlayer`, `addPlayBackListener`), the second
press returns the playback session to idle with trace `stopPlayer`,
`removePlayBackListener`; across the two presses exactly one engine stop call
occurs (hence at most one), and the second press issues no engine start. -/
theorem toggle_same_item_round_trip (s : ScreenState) (item : RecordingItem)
    (e1 e2 : PlayEnv) (hidle : s.currentlyPlayingId = none)
    (h1 : e1.startPlayerOk = true) (h2 : e2.stopPlayerOk = true) :
    ((playRecording e1 item s).state).currentlyPlayingId = some item.id ∧
    ((playRecording e2 item (playRecording e1 item s).state).state).currentlyPlayingId
      = none ∧
    (playRecording e1 item s).calls = [.startPlayer item.path, .addPlayBackListener] ∧
    (playRecording e2 item (playRecording e1 item s).state).calls
      = [.stopPlayer, .removePlayBackListener] ∧
    ((playRecording e1 item s).calls ++
        (playRecording e2 item (playRecording e1 item s).state).calls).countP isStopPlayer
      = 1 ∧
    ((playRecording e2 item (playRecording e1 item s).state).calls).countP isStartPlayer
      = 0 := by
  simp [playRecording, playStart, hidle, h1, h2, List.countP_cons, isStopPlayer, isStartPlayer]

/-- Witness for C6 at a concrete input: double-pressing play on a record with
id `"a"` starting from the initial state. -/
theorem toggle_same_item_round_trip_witness :
    ((playRecording { stopPlayerOk := true, startPlayerOk := true }
        { id := "a", name := "Recording 1", duration := "00:01", path := "files/a.m4a",
          date := "d", isPlaying := false } initState).state).currentlyPlayingId
      = some "a" ∧
    ((playRecording { stopPlayerOk := true, startPlayerOk := true }
        { id := "a", name := "Recording 1", duration := "00:01", path := "files/a.m4a",
          date := "d", isPlaying := false }
        (playRecording { stopPlayerOk := true, startPlayerOk := true }
          { id := "a", name := "Recording 1", duration := "00:01", path := "files/a.m4a",
            date := "d", isPlaying := false } initState).state).state).currentlyPlayingId
      = none ∧
    (playRecording { stopPlayerOk := true, startPlayerOk := true }
        { id := "a", name := "Recording 1", duration := "00:01", path := "files/a.m4a",
          date := "d", isPlaying := false } initState).calls
      = [.startPlayer "files/a.m4a", .addPlayBackListener] ∧
    (playRecording { stopPlayerOk := true, startPlayerOk := true }
        { id := "a", name := "Recording 1", duration := "00:01", path := "files/a.m4a",
          date := "d", isPlaying := false }
        (playRecording { stopPlayerOk := true, startPlayerOk := true }
          { id := "a", name := "Recording 1", duration := "00:01", path := "files/a.m4a",
            date := "d", isPlaying := false } initState).state).calls
      = [.stopPlayer, .removePlayBackListener] ∧
    ((playRecording { stopPlayerOk := true, startPlayerOk := true }
        { id := "a", name := "Recording 1", duration := "00:01", path := "files/a.m4a",
          date := "d", isPlaying := false } initState).calls ++
      (playRecording { stopPlayerOk := true, startPlayerOk := true }
        { id := "a", name := "Recording 1", duration := "00:01", path := "files/a.m4a",
          date := "d", isPlaying := false }
        (playRecording { stopPlayerOk := true, startPlayerOk := true }
          { id := "a", name := "Recording 1", duration := "00:01", path := "files/a.m4a",
            date := "d", isPlaying := false } initState).state).calls).countP isStopPlayer
      = 1 ∧
    ((playRecording { stopPlayerOk := true, startPlayerOk := true }
        { id := "a", name := "Recording 1", duration := "00:01", path := "files/a.m4a",
          date := "d", isPlaying := false }
        (playRecording { stopPlayerOk := true, startPlayerOk := true }
          { id := "a", name := "Recording 1", duration := "00:01", path := "files/a.m4a",
            date := "d", isPlaying := false } initState).state).calls).countP isStartPlayer
      = 0 :=
  toggle_same_item_round_trip initState
    { id := "a", name := "Recording 1", duration := "00:01", path := "files/a.m4a",
      date := "d", isPlaying := false }
    { stopPlayerOk := true, startPlayerOk := true }
    { stopPlayerOk := true, startPlayerOk := true } rfl rfl rfl

theorem applyTicks_spec (t0 : Nat) (k : Nat) (s : ScreenState) (h : s.timer = some t0) :
    applyTicks t0 k s =
      if k = 0 then s else { s with recordingDuration := formatTime (500 * k) } := by
  induction k with
  | zero => rfl
  | succ k ih =>
    rw [applyTicks, ih]
    by_cases hk : k = 0
    · subst hk
      simp [tickFire, h]
    · simp only [hk, if_neg, if_false, Nat.succ_ne_zero]
      simp [tickFire, h]

/-- C2: a successful start at time `t0`, the scheduled interval firings, then
a successful stop at time `t1` append exactly one record at the end of the
list, leaving prior entries and their order unchanged; the record's display
name is `"Recording " + N` with `N` its 1-based position, and its duration
text is `formatTime` of an elapsed value within one tick interval (≤ 500ms)
of the true elapsed time `t1 - t0`. -/
theorem start_stop_appends_one_record (s : ScreenState) (dir dateStr : String)
    (t0 t1 idNow : Nat) (_hidle : s.isRecording = false) (_hle : t0 ≤ t1) :
    ∃ (r : RecordingItem) (dms : Nat),
      (recordOnce dir dateStr t0 t1 idNow s).2 = .stopped r ∧
      ((recordOnce dir dateStr t0 t1 idNow s).1).state.recordings
        = s.recordings ++ [r] ∧
      r.name = "Recording " ++ Nat.repr (s.recordings.length + 1) ∧
      r.duration = formatTime dms ∧
      dms ≤ t1 - t0 ∧ (t1 - t0) - dms ≤ 500 := by
  have hdiv1 : 500 * ((t1 - t0) / 500) ≤ t1 - t0 := by omega
  have hdiv2 : (t1 - t0) - 500 * ((t1 - t0) / 500) ≤ 500 := by omega
  refine ⟨{ id := Nat.repr idNow,
            name := "Recording " ++ Nat.repr (s.recordings.length + 1),
            duration := formatTime (500 * ((t1 - t0) / 500)),
            path := recordingPathFor dir t0, date := dateStr, isPlaying := false },
          500 * ((t1 - t0) / 500), ?_, ?_, rfl, rfl, hdiv1, hdiv2⟩ <;>
  simp only [recordOnce] <;>
  rw [applyTicks_spec t0 ((t1 - t0) / 500) _ rfl] <;>
  by_cases hk : (t1 - t0) / 500 = 0
  · rw [if_pos hk]
    have h00 : formatTime (500 * ((t1 - t0) / 500)) = "00:00" := by
      rw [hk]
      decide
    rw [h00]
    simp [stopRecording, startRecording]
  · rw [if_neg hk]
    simp [stopRecording, startRecording]
  · rw [if_pos hk]
    have h00 : formatTime (500 * ((t1 - t0) / 500)) = "00:00" := by
      rw [hk]
      decide
    rw [h00]
    simp [stopRecording, startRecording]
  · rw [if_neg hk]
    simp [stopRecording, startRecording]

/-- Witness for C2 at a concrete input: recording from 0ms to 1234ms starting
from the initial state. -/
theorem start_stop_appends_one_record_witness :
    ∃ (r : RecordingItem) (dms : Nat),
      (recordOnce "files" "1/1" 0 1234 99 initState).2 = .stopped r ∧
      ((recordOnce "files" "1/1" 0 1234 99 initState).1).state.recordings
        = initState.recordings ++ [r] ∧
      r.name = "Recording " ++ Nat.repr (initState.recordings.length + 1) ∧
      r.duration = formatTime dms ∧
      dms ≤ 1234 - 0 ∧ (1234 - 0) - dms ≤ 500 :=
  start_stop_appends_one_record initState "files" "1/1" 0 1234 99 rfl (by decide)

theorem step_tick_inv (s : ScreenState) (op : Op)
    (h : (s.timer).isSome = s.isRecording) :
    ((step op s).timer).isSome = (step op s).isRecording := by
  cases op with
  | toggleRecord renv senv =>
    cases hr : s.isRecording with
    | true =>
      cases hp : s.currentRecordingPath <;>
        by_cases hok : senv.stopRecorderOk <;>
          simp [step, hr, hp, hok, stopRecording, h]
    | false =>
      by_cases hperm : renv.permissionGranted = false <;>
        by_cases hok : renv.startRecorderOk <;>
          simp [step, hr, hperm, hok, startRecording, h]
  | togglePlay i penv =>
    cases hi : s.recordings[i]? with
    | none => simpa [step, hi] using h
    | some item =>
      cases hid : s.currentlyPlayingId <;>
        simp only [step, hi, playRecording, playStart, hid] <;>
        split_ifs <;> simp [h]
  | timerEvent now =>
    simp only [step]
    cases ht : s.timer with
    | none => simpa [tickFire, ht] using h
    | some t0 =>
      rw [ht] at h
      simp [tickFire, ht, ← h]
  | playbackProgress pos dur =>
    by_cases hl : s.listenerActive <;>
      by_cases he : pos = dur <;>
        simp [step, hl, onPlaybackEvent, he, h]

theorem foldl_tick_inv : ∀ (ops : List Op) (s : ScreenState),
    (s.timer).isSome = s.isRecording →
    (((ops.foldl (fun s op => step op s) s)).timer).isSome
      = (ops.foldl (fun s op => step op s) s).isRecording := by
  intro ops
  induction ops with
  | nil => intro s h; exact h
  | cons op ops ih => intro s h; exact ih _ (step_tick_inv s op h)

/-- C8: in every state reachable by any sequence of operations (record/stop
presses, play presses, interval firings, playback progress events), the 500ms
interval is scheduled exactly when a recording session is active: it is
created on a successful start and is gone whenever the session is out of the
recording state, so no dangling periodic task ever survives the session. -/
theorem tick_alive_iff_recording (ops : List Op) :
    ((run ops).timer).isSome = (run ops).isRecording :=
  foldl_tick_inv ops initState rfl

/-- C1 (counterexample): the claimed mutual exclusion fails at a concrete
input: record from 0 to 1000ms (creating record `"1000"`), start a second
recording at 2000ms, then press play on the first record — the resulting
reachable state has `isRecording = true` and `currentlyPlayingId` non-null
simultaneously. -/
theorem recording_and_playback_both_active :
    (run cexOps).isRecording = true ∧ (run cexOps).currentlyPlayingId = some "1000" :=
  ⟨rfl, rfl⟩

/-- C1 (amended): the coordinator does not enforce mutual exclusion between
the recording and playback sessions: a playback can start while a recording
is active, and a recording can start while a playback is active, each ending
in a reachable state where `isRecording` is true and `currentlyPlayingId` is
non-null simultaneously. -/
theorem mutual_exclusion_not_enforced :
    (∃ (ops : List Op) (i : Nat) (penv : PlayEnv),
        (run ops).isRecording = true ∧ (run ops).currentlyPlayingId = none ∧
        (step (.togglePlay i penv) (run ops)).isRecording = true ∧
        ((step (.togglePlay i penv) (run ops)).currentlyPlayingId).isSome = true) ∧
    (∃ (ops : List Op) (renv : RecEnv) (senv : StopEnv),
        ((run ops).currentlyPlayingId).isSome = true ∧ (run ops).isRecording = false ∧
        (step (.toggleRecord renv senv) (run ops)).isRecording = true ∧
        ((step (.toggleRecord renv senv) (run ops)).currentlyPlayingId).isSome = true) :=
  ⟨⟨opsRecActive, 0, { stopPlayerOk := true, startPlayerOk := true },
    rfl, rfl, rfl, rfl⟩,
   ⟨opsPlayActive,
    { permissionGranted := true, dir := "files", now := 3000, startRecorderOk := true },
    { stopRecorderOk := true, now := 0, dateStr := "d" },
    rfl, rfl, rfl, rfl⟩⟩

/-- Witness for C9 at a concrete input: the shape and parse-back facts
evaluated at 61000ms. -/
theorem formatTime_spec_witness :
    ∃ a b : List Char,
      (formatTime 61000).data = a ++ ':' :: b ∧
      2 ≤ a.length ∧ (∀ c ∈ a, c.isDigit = true) ∧
      b.length = 2 ∧ (∀ c ∈ b, c.isDigit = true) ∧
      digitsVal a = 61000 / 1000 / 60 ∧ digitsVal b = 61000 / 1000 % 60 ∧
      digitsVal a * 60 + digitsVal b = 61000 / 1000 :=
  formatTime_spec.2.2.2 61000

end RecordApp
